import Mathlib

set_option maxRecDepth 100000

/-
  Shallow embedding of src/src/nlp_manim_pipeline.py (NLP to Manim pipeline).

  Modelling conventions:
  - Python strings are Lean String / List Char; text is lowercased with the
    ASCII lowering used by Char.toLower (every non ASCII letter appearing in
    the analysed inputs is already lowercase).
  - Python floats are modelled as exact rationals; float(x) on the decimal
    tokens produced by the coordinate regex is exact decimal parsing, and
    numpy.linalg.norm(v) >= 1 is modelled by 1 <= sum of squares, which is
    equivalent for exact values since the norm is nonnegative.
  - re patterns are embedded as explicit regular expression terms interpreted
    by a backtracking matcher with the leftmost alternation and greedy
    repetition semantics of the re module.
  - Exceptions (ValueError in validation, the try/except of the entry point)
    are modelled with Except / Option.
-/

namespace NLPPipeline

/-- Python str whitespace set (space, tab, newline, carriage return, vertical
tab, form feed), used by str.strip and by the regex class backslash-s. -/
def pySpace (c : Char) : Bool :=
  c = ' ' || c = '\t' || c = '\n' || c = '\r' || c = '\x0b' || c = '\x0c'

/-- Python str.lower, restricted to ASCII letters (sufficient here). -/
def pyLower (s : String) : String := String.mk (s.data.map Char.toLower)

/-- Python str.strip with no arguments: remove leading and trailing whitespace. -/
def pyStrip (s : String) : String :=
  String.mk (((s.data.dropWhile pySpace).reverse.dropWhile pySpace).reverse)

/-- Normalisation done at the start of NLPAnimationParser.parse:
description.lower().strip(). -/
def pyNormalize (s : String) : String := pyStrip (pyLower s)

/-- Boolean list prefix test (used to embed the Python substring operator). -/
def isPrefixB : List Char → List Char → Bool
  | [], _ => true
  | _ :: _, [] => false
  | a :: as, b :: bs => a == b && isPrefixB as bs

/-- Boolean substring occurrence on character lists. -/
def containsB (n : List Char) : List Char → Bool
  | [] => isPrefixB n []
  | c :: t => isPrefixB n (c :: t) || containsB n t

/-- Python substring operator: needle in hay. -/
def pyIn (needle hay : String) : Bool := containsB needle.data hay.data

/-- Python str.find on character lists, returning the first index or -1. -/
def pyFindAux (n : List Char) : List Char → Nat → Option Nat
  | [], i => if isPrefixB n [] then some i else none
  | c :: t, i => if isPrefixB n (c :: t) then some i else pyFindAux n t (i + 1)

/-- Python str.find: index of the first occurrence, or -1. -/
def pyFind (n : List Char) (h : List Char) : Int :=
  match pyFindAux n h 0 with
  | some i => (i : Int)
  | none => -1

/-- Python str.join on a list of strings. -/
def pyJoin (sep : String) : List String → String
  | [] => ""
  | [x] => x
  | x :: y :: ys => x ++ sep ++ pyJoin sep (y :: ys)

/-- Value of a digit list as a natural number. -/
def natOfDigits (l : List Char) : Nat :=
  l.foldl (fun acc c => 10 * acc + (c.toNat - '0'.toNat)) 0

/-- Rational addition built on mkRat (equal to the standard addition, but
kernel reducible, unlike the irreducible Rat.add). -/
def ratAdd (a b : ℚ) : ℚ := mkRat (a.num * b.den + b.num * a.den) (a.den * b.den)

/-- Rational multiplication built on mkRat (equal to the standard
multiplication, but kernel reducible). -/
def ratMul (a b : ℚ) : ℚ := mkRat (a.num * b.num) (a.den * b.den)

/-- Exact value of an integer digit part and a fractional digit part:
ip.fr as a rational. -/
def decimalVal (ip fr : List Char) : ℚ :=
  mkRat (Int.ofNat (natOfDigits ip * 10 ^ fr.length + natOfDigits fr))
    (10 ^ fr.length)

/-- Python float(token) on an already stripped token drawn from the coordinate
regex alphabet (digits, dot, minus, spaces): optional leading minus, then
digits with at most one dot and at least one digit overall.  Tokens such as
"1.1.1", "-", "", "1 2" fail, exactly as float raises ValueError on them. -/
def parseDecimal : List Char → Option ℚ
  | l =>
    let (neg, l1) := match l with
      | '-' :: r => (true, r)
      | r => (false, r)
    let ip := l1.takeWhile Char.isDigit
    let r1 := l1.drop ip.length
    match r1 with
    | [] => if ip.isEmpty then none else
        some (mkRat ((if neg then -1 else 1) * Int.ofNat (natOfDigits ip)) 1)
    | '.' :: fr =>
        if fr.all Char.isDigit && !(ip.isEmpty && fr.isEmpty) then
          some (mkRat ((if neg then -1 else 1) *
            Int.ofNat (natOfDigits ip * 10 ^ fr.length + natOfDigits fr))
            (10 ^ fr.length))
        else none
    | _ => none

/-- Decimal digits of the fraction rem/den (0 <= rem < den), with fuel;
produces the exact expansion for the terminating decimals handled by the
pipeline. -/
def fracDigits : Nat → Nat → Nat → List Char
  | 0, _, _ => []
  | fuel + 1, rem, den =>
    if rem = 0 then []
    else Nat.digitChar ((rem * 10) / den) :: fracDigits fuel ((rem * 10) % den) den

/-- Python repr of a float holding an exact terminating decimal: sign, integer
part, dot, fractional digits, with a trailing zero when the value is integral
(repr(3.0) = "3.0"). -/
def pyFloatRepr (q : ℚ) : String :=
  let n := q.num.natAbs
  let ip := n / q.den
  let fr := fracDigits 25 (n % q.den) q.den
  (if q.num < 0 then "-" else "") ++ Nat.repr ip ++ "." ++
    (if fr.isEmpty then "0" else String.mk fr)

/-- Python repr of a list of floats, as produced by an f-string substitution
of a coordinate list. -/
def pyListRepr (l : List ℚ) : String :=
  "[" ++ pyJoin ", " (l.map pyFloatRepr) ++ "]"

/-! ## Regular expressions

A small term language for the concrete patterns of the source file,
interpreted by a backtracking matcher with re semantics: alternation prefers
the left branch, repetition is greedy, the dot does not match a newline. -/

inductive RE where
  | eps : RE
  | dot : RE
  | chr : (Char → Bool) → RE
  | seq : RE → RE → RE
  | alt : RE → RE → RE
  | opt : RE → RE
  | star : RE → RE

/-- Number of nodes of a pattern, used to size the interpreter fuel. -/
def reSize : RE → Nat
  | .eps => 1
  | .dot => 1
  | .chr _ => 1
  | .seq a b => 1 + reSize a + reSize b
  | .alt a b => 1 + reSize a + reSize b
  | .opt a => 1 + reSize a
  | .star a => 1 + reSize a

/-- Backtracking interpreter in continuation style.  The continuation
receives the unconsumed suffix; the first accepted parse in backtracking
order wins, which is exactly the re match semantics.  The fuel (decremented
on every call to keep the recursion structural and kernel reducible) bounds
the depth of one parse; matchLen passes a fuel far larger than any parse of
the patterns of this file can need, since every starred subpattern here
consumes at least one character per iteration. -/
def mrun : Nat → RE → List Char → (List Char → Option (List Char)) →
    Option (List Char)
  | 0, _, _, _ => none
  | fuel + 1, re, l, k =>
    match re with
    | .eps => k l
    | .dot =>
      match l with
      | [] => none
      | c :: r => if c = '\n' then none else k r
    | .chr p =>
      match l with
      | [] => none
      | c :: r => if p c then k r else none
    | .seq a b => mrun fuel a l (fun r => mrun fuel b r k)
    | .alt a b => (mrun fuel a l k).orElse (fun _ => mrun fuel b l k)
    | .opt a => (mrun fuel a l k).orElse (fun _ => k l)
    | .star a =>
      (mrun fuel a l (fun r => mrun fuel (.star a) r k)).orElse (fun _ => k l)

/-- Length of the leftmost greedy match of re at the start of l, if any. -/
def matchLen (re : RE) (l : List Char) : Option Nat :=
  match mrun ((reSize re + 8) * (l.length + 8)) re l (fun r => some r) with
  | some r => some (l.length - r.length)
  | none => none

/-- Existence of a match anywhere (re.search): scan positions left to right. -/
def research (re : RE) : List Char → Bool
  | [] => (matchLen re []).isSome
  | l@(_ :: t) => (matchLen re l).isSome || research re t

/-- Auxiliary scan for finditer: at each position take the leftmost match,
record its span and matched text, and continue after it.  The patterns in
this file never match the empty string; the zero length branch only keeps
the function total. -/
def finditerAux (re : RE) : Nat → List Char → Nat → List (Nat × Nat × List Char)
  | 0, _, _ => []
  | _ + 1, [], _ => []
  | fuel + 1, l@(_ :: t), i =>
    match matchLen re l with
    | some len =>
      if len = 0 then finditerAux re fuel t (i + 1)
      else (i, i + len, l.take len) :: finditerAux re fuel (l.drop len) (i + len)
    | none => finditerAux re fuel t (i + 1)

/-- re.finditer: non overlapping matches with spans, scanning left to right. -/
def finditer (re : RE) (l : List Char) : List (Nat × Nat × List Char) :=
  finditerAux re l.length l 0

/-- Case insensitive single character (the source passes re.IGNORECASE; all
scanned text is lowercased first, so this coincides with exact matching
there). -/
def reChar (c : Char) : RE := .chr (fun x => x.toLower = c.toLower)

/-- Sequencing of a pattern list. -/
def reSeq : List RE → RE
  | [] => .eps
  | [x] => x
  | x :: y :: ys => .seq x (reSeq (y :: ys))

/-- Literal string pattern (case insensitive characters). -/
def reStr (s : String) : RE := reSeq (s.data.map reChar)

/-- Alternation of a pattern list, preferring earlier entries. -/
def reAlts : List RE → RE
  | [] => .chr (fun _ => false)
  | [x] => x
  | x :: y :: ys => .alt x (reAlts (y :: ys))

/-- One or more repetitions, greedy. -/
def rePlus (r : RE) : RE := .seq r (.star r)

/-- Whitespace class of the regex module. -/
def wsChr : RE := .chr pySpace

/-- Character class of the coordinate patterns: digits, dot, comma,
whitespace, minus. -/
def coordChr : RE :=
  .chr (fun c => c.isDigit || c = '.' || c = ',' || pySpace c || c = '-')

/-! ## Data model (AnimationType, AnimationRequest and friends) -/

inductive AnimationType where
  | GEOMETRIC_TRANSFORM : AnimationType
  | VECTOR_OPERATION : AnimationType
  | MANIFOLD_VISUALIZATION : AnimationType
  | FIELD_DYNAMICS : AnimationType
  | ALGEBRAIC_STRUCTURE : AnimationType
  deriving DecidableEq

/-- One extracted object dict: type, matched text, span, and the optional
coordinates key (present only when parsing succeeded). -/
structure MathObject where
  type : String
  value : String
  posStart : Nat
  posEnd : Nat
  coordinates : Option (List ℚ)
  deriving DecidableEq

/-- Parameters attached to one transformation dict (angle, unit, reference
keys, each present only when extracted). -/
structure TransformParams where
  angle : Option ℚ
  unit : Option String
  reference : Option String
  deriving DecidableEq

/-- One transformation dict: type, keyword, parameters. -/
structure Transformation where
  type : String
  keyword : String
  params : TransformParams
  deriving DecidableEq

/-- The parameters dict of a request (always carries all three keys). -/
structure AnimParams where
  duration : ℚ
  quality : String
  style : String
  deriving DecidableEq

/-- The AnimationRequest dataclass. -/
structure AnimationRequest where
  description : String
  animation_type : AnimationType
  objects : List MathObject
  transformations : List Transformation
  parameters : AnimParams
  validation_required : Bool := true
  deriving DecidableEq

/-- The validation results dict of AnimationValidator.validate. -/
structure ValidationReport where
  mathematical_accuracy : Bool
  warnings : List String
  suggestions : List String
  deriving DecidableEq

/-- The dict returned by process_animation_request.  On failure the source
sets manim_code and animation_request to None and puts the message both in
the error key and in the validation report; the report option is none both
on failure and when validation is skipped. -/
structure PipelineResult where
  success : Bool
  manim_code : Option String
  validation_report : Option ValidationReport
  animation_request : Option AnimationRequest
  error : Option String
  deriving DecidableEq

/-! ## Concrete patterns of NLPAnimationParser.__init__ -/

/-- Pattern S[²³⁴]?\s*sphere|(?:unit\s+)?sphere. -/
def sphereRE : RE :=
  .alt (reSeq [reChar 'S', .opt (.chr (fun c => c = '²' || c = '³' || c = '⁴')),
               .star wsChr, reStr "sphere"])
       (reSeq [.opt (reSeq [reStr "unit", rePlus wsChr]), reStr "sphere"])

/-- Pattern (?:polar|complex|euclidean)?\s*plane. -/
def planeRE : RE :=
  reSeq [.opt (reAlts [reStr "polar", reStr "complex", reStr "euclidean"]),
         .star wsChr, reStr "plane"]

/-- Pattern \[[\d.,\s-]+\]|vector\s*\([\d.,\s-]+\). -/
def vectorRE : RE :=
  .alt (reSeq [reChar '[', rePlus coordChr, reChar ']'])
       (reSeq [reStr "vector", .star wsChr, reChar '(', rePlus coordChr,
               reChar ')'])

/-- Pattern point\s*(?:at\s*)?\([\d.,\s-]+\). -/
def pointRE : RE :=
  reSeq [reStr "point", .star wsChr, .opt (reSeq [reStr "at", .star wsChr]),
         reChar '(', rePlus coordChr, reChar ')']

/-- Pattern (?:manifold|surface|space). -/
def manifoldRE : RE := reAlts [reStr "manifold", reStr "surface", reStr "space"]

/-- The object_patterns dict, in insertion order. -/
def object_patterns : List (String × RE) :=
  [("sphere", sphereRE), ("plane", planeRE), ("vector", vectorRE),
   ("point", pointRE), ("manifold", manifoldRE)]

/-- Position of an object kind in the iteration order of object_patterns,
used to state in which order extracted objects are listed. -/
def kindIndex (ty : String) : Nat :=
  if ty = "sphere" then 0
  else if ty = "plane" then 1
  else if ty = "vector" then 2
  else if ty = "point" then 3
  else if ty = "manifold" then 4
  else 5

/-- Pattern stereo(?:graphic)?\s+project(?:ed|ion)?. -/
def stereoRE1 : RE :=
  reSeq [reStr "stereo", .opt (reStr "graphic"), rePlus wsChr,
         reStr "project", .opt (.alt (reStr "ed") (reStr "ion"))]

/-- Pattern project\s+.*\s+(?:on|onto)\s+.*\s+plane. -/
def stereoRE2 : RE :=
  reSeq [reStr "project", rePlus wsChr, .star .dot, rePlus wsChr,
         .alt (reStr "on") (reStr "onto"), rePlus wsChr, .star .dot,
         rePlus wsChr, reStr "plane"]

/-- Pattern gyro(?:addition|scalar|distance|parallel). -/
def gyroRE1 : RE :=
  reSeq [reStr "gyro", reAlts [reStr "addition", reStr "scalar",
         reStr "distance", reStr "parallel"]]

/-- Pattern (?:add|multiply|transport)\s+.*\s+gyrovector. -/
def gyroRE2 : RE :=
  reSeq [reAlts [reStr "add", reStr "multiply", reStr "transport"],
         rePlus wsChr, .star .dot, rePlus wsChr, reStr "gyrovector"]

/-- Pattern rotate\s+.*\s+(?:around|about|relative). -/
def rotateRE1 : RE :=
  reSeq [reStr "rotate", rePlus wsChr, .star .dot, rePlus wsChr,
         reAlts [reStr "around", reStr "about", reStr "relative"]]

/-- Pattern (?:spin|turn)\s+.*\s+(?:by|through). -/
def rotateRE2 : RE :=
  reSeq [.alt (reStr "spin") (reStr "turn"), rePlus wsChr, .star .dot,
         rePlus wsChr, .alt (reStr "by") (reStr "through")]

/-- Pattern (?:mobius|möbius)\s+transform. -/
def mobiusRE1 : RE :=
  reSeq [.alt (reStr "mobius") (reStr "möbius"), rePlus wsChr,
         reStr "transform"]

/-- Pattern conformal\s+map. -/
def mobiusRE2 : RE := reSeq [reStr "conformal", rePlus wsChr, reStr "map"]

/-- Pattern (?:poincaré|klein|hyperboloid)\s+(?:disk|ball|model). -/
def hyperbolicRE1 : RE :=
  reSeq [reAlts [reStr "poincaré", reStr "klein", reStr "hyperboloid"],
         rePlus wsChr, reAlts [reStr "disk", reStr "ball", reStr "model"]]

/-- Pattern hyperbolic\s+(?:plane|space|geometry). -/
def hyperbolicRE2 : RE :=
  reSeq [reStr "hyperbolic", rePlus wsChr,
         reAlts [reStr "plane", reStr "space", reStr "geometry"]]

/-- The concept_patterns dict flattened to (concept name, pattern) pairs in
iteration order of the two nested loops of _detect_animation_type. -/
def concept_patterns : List (String × RE) :=
  [("stereographic_projection", stereoRE1), ("stereographic_projection", stereoRE2),
   ("gyrovector_operation", gyroRE1), ("gyrovector_operation", gyroRE2),
   ("rotation", rotateRE1), ("rotation", rotateRE2),
   ("mobius_transformation", mobiusRE1), ("mobius_transformation", mobiusRE2),
   ("hyperbolic_space", hyperbolicRE1), ("hyperbolic_space", hyperbolicRE2)]

namespace NLPAnimationParser

/-- Loop body of _detect_animation_type: first pattern that matches decides
the type through the substring tests on the concept name; a match on a
concept containing none of the tested substrings (the rotation concept)
falls through and the scan continues. -/
def detectAux : List (String × RE) → List Char → Option AnimationType
  | [], _ => none
  | (concept, p) :: rest, t =>
    if research p t then
      if pyIn "stereo" concept || pyIn "mobius" concept then
        some AnimationType.GEOMETRIC_TRANSFORM
      else if pyIn "gyro" concept then some AnimationType.VECTOR_OPERATION
      else if pyIn "hyperbolic" concept then
        some AnimationType.MANIFOLD_VISUALIZATION
      else detectAux rest t
    else detectAux rest t

/-- Embeds _detect_animation_type (defaults to GEOMETRIC_TRANSFORM). -/
def detect_animation_type (t : List Char) : AnimationType :=
  (detectAux concept_patterns t).getD AnimationType.GEOMETRIC_TRANSFORM

/-- Embeds _parse_coordinates: strip the characters of the set "[]() " from
both ends, split on commas, parse every token as a float of its stripped
text; any failure (the except branch) yields none. -/
def parse_coordinates (s : String) : Option (List ℚ) :=
  let stripSet : Char → Bool := fun c =>
    c = '[' || c = ']' || c = '(' || c = ')' || c = ' '
  let core := ((s.data.dropWhile stripSet).reverse.dropWhile stripSet).reverse
  let parts := core.splitOn ','
  let vals := parts.map (fun p =>
    parseDecimal ((p.dropWhile pySpace).reverse.dropWhile pySpace).reverse)
  if vals.all Option.isSome then some (vals.map (fun v => v.getD 0)) else none

/-- Objects produced for a single entry of object_patterns: one MathObject
per finditer match; vector and point matches additionally try to parse
coordinates (the key is only set when parsing succeeds). -/
def objectsFor (ty : String) (re : RE) (t : List Char) : List MathObject :=
  (finditer re t).map (fun m =>
    { type := ty, value := String.mk m.2.2, posStart := m.1, posEnd := m.2.1,
      coordinates :=
        if ty = "vector" || ty = "point" then parse_coordinates (String.mk m.2.2)
        else none })

/-- Embeds _extract_objects: loop over object_patterns in insertion order and
collect the matches of each pattern.  The spaCy document computed by the
source is unused there and is omitted. -/
def extract_objects (t : List Char) : List MathObject :=
  objectsFor "sphere" sphereRE t ++ objectsFor "plane" planeRE t ++
  objectsFor "vector" vectorRE t ++ objectsFor "point" pointRE t ++
  objectsFor "manifold" manifoldRE t

/-- The transform_keywords table of _extract_transformations, in insertion
order. -/
def transform_keywords : List (String × List String) :=
  [("rotation", ["rotate", "spin", "turn"]),
   ("projection", ["project", "map"]),
   ("translation", ["move", "shift", "translate"]),
   ("scaling", ["scale", "resize", "zoom"])]

end NLPAnimationParser

/-- Maximal digit run at the head of a list, with the rest. -/
def digitsTake (l : List Char) : List Char × List Char :=
  (l.takeWhile Char.isDigit, l.dropWhile Char.isDigit)

/-- Attempt of the pattern (\d+(?:\.\d+)?)\s*UNIT at one position: greedy
digits, then the optional fractional part with the single backtracking point
of the regex (with the fraction first, then without it), then \s* and the
first unit of the alternation that fits.  Returns the captured number and
the unit lexeme that matched. -/
def numberUnitAt (units : List String) (l : List Char) : Option (ℚ × String) :=
  let unitAfterWs : List Char → Option String := fun r =>
    let rest := r.dropWhile pySpace
    units.find? (fun u => isPrefixB u.data rest)
  let (ds, r1) := digitsTake l
  if ds.isEmpty then none
  else
    let withFrac : Option (ℚ × String) :=
      match r1 with
      | '.' :: r2 =>
        let (fs, r3) := digitsTake r2
        if fs.isEmpty then none
        else
          match unitAfterWs r3 with
          | some u => some (decimalVal ds fs, u)
          | none => none
      | _ => none
    match withFrac with
    | some res => some res
    | none =>
      match unitAfterWs r1 with
      | some u => some (mkRat (Int.ofNat (natOfDigits ds)) 1, u)
      | none => none

/-- re.search for the number and unit patterns: scan positions left to
right, first success wins. -/
def findNumberUnit (units : List String) : List Char → Option (ℚ × String)
  | [] => none
  | l@(_ :: t) =>
    match numberUnitAt units l with
    | some res => some res
    | none => findNumberUnit units t

/-- Word characters of the regex class backslash-w (ASCII approximation). -/
def wordChr (c : Char) : Bool := c.isAlphanum || c = '_'

/-- Attempt of the pattern (?:relative to|around)\s+(?:the\s+)?(\w+) at one
position, with the backtracking of the optional group (with the, then
without). -/
def referenceAt (l : List Char) : Option String :=
  let afterKw : Option (List Char) :=
    if isPrefixB "relative to".data l then some (l.drop 11)
    else if isPrefixB "around".data l then some (l.drop 6)
    else none
  match afterKw with
  | none => none
  | some r =>
    if (r.takeWhile pySpace).isEmpty then none
    else
      let r1 := r.dropWhile pySpace
      let withThe : Option String :=
        if isPrefixB "the".data r1 then
          let r2 := r1.drop 3
          if (r2.takeWhile pySpace).isEmpty then none
          else
            let r3 := r2.dropWhile pySpace
            let w := r3.takeWhile wordChr
            if w.isEmpty then none else some (String.mk w)
        else none
      match withThe with
      | some w => some w
      | none =>
        let w := r1.takeWhile wordChr
        if w.isEmpty then none else some (String.mk w)

/-- re.search of the reference pattern: leftmost position first. -/
def findReference : List Char → Option String
  | [] => none
  | l@(_ :: t) =>
    match referenceAt l with
    | some w => some w
    | none => findReference t

namespace NLPAnimationParser

/-- Embeds _extract_transform_params: slice a 100 character context window
around the first occurrence of the keyword, extract an angle for the
rotation keywords (the unit is degrees exactly when the matched unit lexeme
is the degree sign, since the source tests the degree sign inside the whole
matched text), and extract a reference object when the context mentions
relative to or around. -/
def extract_transform_params (t : List Char) (kw : String) : TransformParams :=
  let pos : Int := pyFind kw.data t
  let lo : Nat := (max 0 (pos - 50)).toNat
  let hi : Nat := (min (t.length : Int) (pos + 50)).toNat
  let context := (t.drop lo).take (hi - lo)
  let angleU : Option (ℚ × String) :=
    if kw = "rotate" || kw = "spin" || kw = "turn" then
      findNumberUnit ["degree", "rad", "°"] context
    else none
  let reference : Option String :=
    if pyIn "relative to" (String.mk context) || pyIn "around" (String.mk context)
    then findReference context
    else none
  { angle := angleU.map (fun x => x.1),
    unit := angleU.map (fun x => if x.2 = "°" then "degrees" else "radians"),
    reference := reference }

/-- Inner loop of _extract_transformations over the keywords of one type. -/
def transformsForKeywords (t : List Char) (ty : String) :
    List String → List Transformation
  | [] => []
  | kw :: rest =>
    (if pyIn kw (String.mk t) then
       [{ type := ty, keyword := kw, params := extract_transform_params t kw }]
     else []) ++ transformsForKeywords t ty rest

/-- Outer loop of _extract_transformations over the keyword table. -/
def transformsForTable (t : List Char) :
    List (String × List String) → List Transformation
  | [] => []
  | (ty, kws) :: rest =>
    transformsForKeywords t ty kws ++ transformsForTable t rest

/-- Embeds _extract_transformations. -/
def extract_transformations (t : List Char) : List Transformation :=
  transformsForTable t transform_keywords

/-- Embeds _extract_parameters: defaults 3.0 / standard / academic, duration
from the first (\d+(?:\.\d+)?)\s*(?:second|sec)s? match, quality and style
from keyword tests. -/
def extract_parameters (t : List Char) : AnimParams :=
  let s := String.mk t
  let duration : ℚ :=
    match findNumberUnit ["second", "sec"] t with
    | some x => x.1
    | none => mkRat 3 1
  let quality : String :=
    if pyIn "4k" s || pyIn "high quality" s || pyIn "ultra" s then "4k"
    else if pyIn "preview" s || pyIn "quick" s then "preview"
    else "standard"
  let style : String :=
    if pyIn "artistic" s || pyIn "beautiful" s then "artistic"
    else if pyIn "minimal" s || pyIn "simple" s then "minimalist"
    else "academic"
  { duration := duration, quality := quality, style := style }

/-- Coordinate length used by the dimension check: len(v.get("coordinates", [])). -/
def coordLen (v : MathObject) : Nat := (v.coordinates.getD []).length

/-- Embeds _validate_request, with ValueError as Except.error.  The sphere
check fires for a transformation whose type is the string
stereographic_projection and no object whose type contains sphere; the
dimension check mirrors len(set(dimensions)) > 1 as the existence of a
dimension different from the first one. -/
def validate_request (objects : List MathObject)
    (transformations : List Transformation) : Except String Unit :=
  if transformations.any (fun tr =>
       tr.type == "stereographic_projection" &&
       !(objects.any (fun o => pyIn "sphere" o.type))) then
    .error "Stereographic projection requires a sphere object"
  else
    let vectors := objects.filter (fun o => o.type == "vector")
    let dims := vectors.map coordLen
    match dims with
    | [] => .ok ()
    | d :: rest =>
      if rest.any (fun x => x != d) then
        .error "All vectors must have the same dimension"
      else .ok ()

/-- Embeds NLPAnimationParser.parse: normalise, detect, extract, validate;
the ValueError of validation is the only exception source. -/
def parse (description : String) : Except String AnimationRequest :=
  let d := pyNormalize description
  let t := d.data
  let ty := detect_animation_type t
  let objs := extract_objects t
  let trans := extract_transformations t
  let params := extract_parameters t
  match validate_request objs trans with
  | .error e => .error e
  | .ok _ =>
    .ok { description := d, animation_type := ty, objects := objs,
          transformations := trans, parameters := params,
          validation_required := true }

end NLPAnimationParser

namespace ManimCodeGenerator

/-- Template stereographic_projection of _load_templates (selected by
_select_template but never spliced into the generated code by generate). -/
def template_stereographic : String :=
  "\n        # Stereographic projection setup\n        sphere = Sphere(radius=2, resolution=(30, 30))\n        sphere.set_color(BLUE_E)\n        \n        # Create projection plane\n        plane = Square(side_length=6).rotate(PI/2, RIGHT)\n        plane.shift(3*DOWN)\n        plane.set_fill(GRAY, opacity=0.3)\n        \n        # Projection mapping function\n        def stereo_project(point):\n            x, y, z = point\n            if z >= 0.99:  # Handle north pole\n                return np.array([0, 0, -3])\n            factor = 1 / (1 - z)\n            return np.array([factor * x, factor * y, -3])\n        "

/-- Template gyrovector_addition of _load_templates (likewise never spliced
into the generated code). -/
def template_gyrovector : String :=
  "\n        # Gyrovector addition in Poincaré disk\n        disk = Circle(radius=3, color=WHITE)\n        \n        # Convert to Poincaré disk coordinates\n        def to_poincare(v):\n            norm = np.linalg.norm(v)\n            if norm >= 1:\n                return 0.99 * v / norm\n            return v\n        \n        # Gyroaddition formula\n        def gyro_add(u, v):\n            u_norm_sq = np.dot(u, u)\n            v_norm_sq = np.dot(v, v)\n            uv_dot = np.dot(u, v)\n            \n            denominator = 1 + 2*uv_dot + u_norm_sq * v_norm_sq\n            numerator_u = (1 + 2*uv_dot + v_norm_sq) * u\n            numerator_v = (1 - u_norm_sq) * v\n            \n            return (numerator_u + numerator_v) / denominator\n        "

/-- Embeds _select_template: a stereographic template for a geometric
transform whose transformation keyword contains project, the gyrovector
template for vector operations, otherwise empty. -/
def select_template (req : AnimationRequest) : String :=
  if req.animation_type = AnimationType.GEOMETRIC_TRANSFORM then
    if req.transformations.any (fun tr => pyIn "project" tr.keyword) then
      template_stereographic
    else ""
  else if req.animation_type = AnimationType.VECTOR_OPERATION then
    template_gyrovector
  else ""

/-- Embeds _generate_scene_setup: a camera block for manifold visualisation
and a lighting block for the artistic style, joined with newlines. -/
def generate_scene_setup (req : AnimationRequest) : String :=
  pyJoin "\n"
    ((if req.animation_type = AnimationType.MANIFOLD_VISUALIZATION then
        ["\n        # 3D camera setup\n        self.set_camera_orientation(phi=75*DEGREES, theta=-45*DEGREES)\n        self.begin_ambient_camera_rotation(rate=0.1)\n        "]
      else []) ++
     (if req.parameters.style = "artistic" then
        ["\n        # Artistic lighting\n        self.camera.background_color = \"#1e1e2e\"\n        "]
      else []))

/-- Name obj_i given to the object at index i. -/
def objName (i : Nat) : String := "obj_" ++ Nat.repr i

/-- Code fragment for a sphere object.  The source also computes a dimension
variable from the matched text but never uses it in the emitted fragment. -/
def sphereFrag (i : Nat) : String :=
  "\n        " ++ objName i ++ " = Sphere(radius=2, resolution=(30, 30))\n        " ++
  objName i ++ ".set_color(BLUE_E)\n        self.add(" ++ objName i ++ ")\n        "

/-- Code fragment for a vector object carrying coordinates. -/
def vectorFrag (i : Nat) (coords : List ℚ) : String :=
  "\n        " ++ objName i ++ "_coords = " ++ pyListRepr coords ++
  "\n        " ++ objName i ++ " = Arrow3D(ORIGIN, " ++ objName i ++
  "_coords, color=YELLOW)\n        self.add(" ++ objName i ++ ")\n        "

/-- Code fragment for a plane object.  The source also computes a plane_type
variable but never uses it in the emitted fragment. -/
def planeFrag (i : Nat) : String :=
  "\n        " ++ objName i ++ " = Square(side_length=6).rotate(PI/2, RIGHT)\n        " ++
  objName i ++ ".shift(3*DOWN)\n        " ++ objName i ++
  ".set_fill(GRAY, opacity=0.3)\n        self.add(" ++ objName i ++ ")\n        "

/-- Loop body of _generate_objects: enumerate the objects; spheres, vectors
with coordinates and planes emit a fragment, everything else emits nothing
but still consumes its index. -/
def objectFrags : Nat → List MathObject → List String
  | _, [] => []
  | i, o :: rest =>
    (if o.type == "sphere" then [sphereFrag i]
     else if o.type == "vector" && o.coordinates.isSome then
       [vectorFrag i (o.coordinates.getD [])]
     else if o.type == "plane" then [planeFrag i]
     else []) ++ objectFrags (i + 1) rest

/-- Embeds _generate_objects. -/
def generate_objects (objects : List MathObject) : String :=
  pyJoin "\n" (objectFrags 0 objects)

/-- Constant prefix of the rotation fragment, up to the angle substitution. -/
def rotFragPre : String :=
  "\n        # Rotation animation\n        self.play(\n            Rotate(obj_0, "

/-- Constant suffix of the rotation fragment, after the angle substitution. -/
def rotFragPost : String :=
  ", axis=UP, about_point=ORIGIN),\n            run_time=3\n        )\n        "

/-- Angle substitution of the rotation fragment: params.get("angle", 360)
is the integer 360 when no angle was extracted (formatted without a decimal
point) and a float otherwise. -/
def angleRepr : Option ℚ → String
  | none => "360"
  | some q => pyFloatRepr q

/-- Rotation fragment: the angle in DEGREES when the unit (default degrees)
is degrees, the bare number otherwise, always applied to obj_0. -/
def rotationFrag (p : TransformParams) : String :=
  let angle_rad :=
    if p.unit.getD "degrees" = "degrees" then angleRepr p.angle ++ "*DEGREES"
    else angleRepr p.angle
  rotFragPre ++ angle_rad ++ rotFragPost

/-- Projection fragment (a fixed block referring to a sphere variable). -/
def projectionFrag : String :=
  "\n        # Stereographic projection animation\n        projected_points = []\n        for point in sphere.get_points():\n            projected = stereo_project(point)\n            projected_points.append(projected)\n        \n        # Animate projection\n        self.play(\n            *[Transform(\n                Dot(point), \n                Dot(projected)\n            ) for point, projected in zip(\n                sphere.get_points()[::10], \n                projected_points[::10]\n            )],\n            run_time=4\n        )\n        "

/-- Loop body of _generate_transformations: rotations and projections emit a
fragment, other transformation types emit nothing. -/
def transformationFrags : List Transformation → List String
  | [] => []
  | tr :: rest =>
    (if tr.type == "rotation" then [rotationFrag tr.params]
     else if tr.type == "projection" then [projectionFrag]
     else []) ++ transformationFrags rest

/-- Embeds _generate_transformations (the objects argument is unused by the
source as well). -/
def generate_transformations (transformations : List Transformation)
    (_objects : List MathObject) : String :=
  pyJoin "\n" (transformationFrags transformations)

/-- Embeds ManimCodeGenerator.generate: the selected template is computed
and discarded exactly as in the source (the f-string never references it);
the skeleton interpolates scene setup, object code, transformation code and
the duration. -/
def generate (req : AnimationRequest) : String :=
  let _template := select_template req
  let scene_code := generate_scene_setup req
  let object_code := generate_objects req.objects
  let transform_code := generate_transformations req.transformations req.objects
  "\nfrom manim import *\nimport numpy as np\nfrom math import *\n\nclass GeneratedAnimation(ThreeDScene):\n    def construct(self):\n        " ++
  scene_code ++ "\n        \n        # Create objects\n        " ++ object_code ++
  "\n        \n        # Apply transformations\n        " ++ transform_code ++
  "\n        \n        # Render with appropriate timing\n        self.wait(" ++
  pyFloatRepr req.parameters.duration ++ ")\n"

end ManimCodeGenerator

namespace AnimationValidator

/-- Objects of type vector of a request (the filter used by
_validate_vector_operations). -/
def vectorObjects (req : AnimationRequest) : List MathObject :=
  req.objects.filter (fun o => o.type == "vector")

/-- Sum of squares of a coordinate list; 1 <= sumSq c models
numpy.linalg.norm(c) >= 1 exactly, the norm being nonnegative. -/
def sumSq (l : List ℚ) : ℚ :=
  l.foldr (fun x acc => ratAdd (ratMul x x) acc) (mkRat 0 1)

/-- Warning text for a vector outside the unit ball (the two adjacent
f-string literals of the source concatenate to this message). -/
def vectorWarning (cs : List ℚ) : String :=
  "Vector " ++ pyListRepr cs ++ " has norm >= 1, not valid for Poincaré ball model"

/-- Embeds _validate_vector_operations: only when at least two vector
objects exist and all of them carry coordinates, emit one warning per vector
of norm at least one; the warnings key exists only when at least one warning
was appended. -/
def validate_vector_operations (req : AnimationRequest) : Option (List String) :=
  let vectors := vectorObjects req
  if 2 ≤ vectors.length ∧ vectors.all (fun v => v.coordinates.isSome) then
    let ws := vectors.filterMap (fun v =>
      match v.coordinates with
      | some cs => if mkRat 1 1 ≤ sumSq cs then some (vectorWarning cs) else none
      | none => none)
    if ws.isEmpty then none else some ws
  else none

/-- Suggestion text emitted for every projection transformation. -/
def northPoleSuggestion : String :=
  "Consider handling the north pole singularity in stereographic projection"

/-- Embeds _validate_geometric_transforms: one suggestion per projection
transformation; the suggestions key exists only when one was appended. -/
def validate_geometric_transforms (req : AnimationRequest) :
    Option (List String) :=
  let sgs := req.transformations.filterMap (fun tr =>
    if tr.type == "projection" then some northPoleSuggestion else none)
  if sgs.isEmpty then none else some sgs

/-- Embeds _check_numerical_stability: substring tests on the generated
code; the result pairs the stable flag with the joined reason. -/
def check_numerical_stability (code : String) : Bool × Option String :=
  let issues :=
    (if pyIn "/ (1 -" code && !(pyIn "0.99" code) then
       ["Division by (1-z) without bounds check"] else []) ++
    (if pyIn "norm(" code && !(pyIn "if norm" code) then
       ["Vector normalization without zero check"] else [])
  (issues.isEmpty, if issues.isEmpty then none else some (pyJoin "; " issues))

/-- Warnings appended by the stability check. -/
def stabilityWarnings (code : String) : List String :=
  let s := check_numerical_stability code
  if s.1 then []
  else ["Potential numerical instability: " ++ s.2.getD "None"]

/-- Warnings of the report before the stability check: the dict update
replaces the initially empty warnings list with the vector warnings when the
key is present. -/
def typeWarnings (req : AnimationRequest) : List String :=
  if req.animation_type = AnimationType.VECTOR_OPERATION then
    match validate_vector_operations req with
    | some ws => ws
    | none => []
  else []

/-- Suggestions of the report: the dict update replaces the initially empty
suggestions list when the key is present (geometric transform branch of the
if/elif chain). -/
def typeSuggestions (req : AnimationRequest) : List String :=
  if req.animation_type = AnimationType.GEOMETRIC_TRANSFORM then
    match validate_geometric_transforms req with
    | some ss => ss
    | none => []
  else []

/-- Embeds AnimationValidator.validate: the accuracy flag is set to True at
construction and no later update touches it; type specific results replace
the warning and suggestion lists and the stability warning is appended. -/
def validate (req : AnimationRequest) (generated_code : String) :
    ValidationReport :=
  { mathematical_accuracy := true,
    warnings := typeWarnings req ++ stabilityWarnings generated_code,
    suggestions := typeSuggestions req }

end AnimationValidator

/-- Embeds process_animation_request: parse, generate, optionally validate;
any exception (the ValueError of request validation) is caught and turned
into a failure record with no code, no request and the message in the error
key. -/
def process_animation_request (description : String) (validate : Bool) :
    PipelineResult :=
  match NLPAnimationParser.parse description with
  | .error e =>
    { success := false, manim_code := none, validation_report := none,
      animation_request := none, error := some e }
  | .ok req =>
    let manim_code := ManimCodeGenerator.generate req
    { success := true, manim_code := some manim_code,
      validation_report :=
        if validate then some (AnimationValidator.validate req manim_code)
        else none,
      animation_request := some req, error := none }

/-- A concrete request holding one rotation transformation without an angle
and no objects at all, used to instantiate statements about the generator. -/
def rotationOnlyRequest : AnimationRequest :=
  { description := "", animation_type := AnimationType.GEOMETRIC_TRANSFORM,
    objects := [],
    transformations :=
      [{ type := "rotation", keyword := "rotate",
         params := { angle := none, unit := none, reference := none } }],
    parameters := { duration := mkRat 3 1, quality := "standard",
                    style := "academic" },
    validation_required := true }

/-- A concrete request holding two vector objects with coordinates, one of
them of norm larger than one, used to instantiate statements about the
validator. -/
def twoVectorRequest : AnimationRequest :=
  { description := "", animation_type := AnimationType.VECTOR_OPERATION,
    objects :=
      [{ type := "vector", value := "[1.5, 0]", posStart := 0, posEnd := 8,
         coordinates := some [mkRat 3 2, mkRat 0 1] },
       { type := "vector", value := "[0, 0]", posStart := 9, posEnd := 15,
         coordinates := some [mkRat 0 1, mkRat 0 1] }],
    transformations := [],
    parameters := { duration := mkRat 3 1, quality := "standard",
                    style := "academic" },
    validation_required := true }

/-! ## Auxiliary lemmas about the string primitives -/

theorem strData_append (a b : String) : (a ++ b).data = a.data ++ b.data := by
  cases a; cases b; rfl

theorem isPrefixB_iff (n : List Char) :
    ∀ h : List Char, isPrefixB n h = true ↔ ∃ r, n ++ r = h := by
  induction n with
  | nil => intro h; simp [isPrefixB]
  | cons a as ih =>
    intro h
    cases h with
    | nil => simp [isPrefixB]
    | cons b bs =>
      simp only [isPrefixB, Bool.and_eq_true, beq_iff_eq, ih bs,
        List.cons_append, List.cons.injEq]
      constructor
      · rintro ⟨rfl, r, rfl⟩
        exact ⟨r, rfl, rfl⟩
      · rintro ⟨r, rfl, rfl⟩
        exact ⟨rfl, r, rfl⟩

theorem containsB_iff (n : List Char) :
    ∀ h : List Char, containsB n h = true ↔ ∃ s t, s ++ n ++ t = h := by
  intro h
  induction h with
  | nil =>
    simp only [containsB, isPrefixB_iff]
    constructor
    · rintro ⟨r, hr⟩
      exact ⟨[], r, by simpa using hr⟩
    · rintro ⟨s, t, hst⟩
      rcases List.append_eq_nil.mp hst with ⟨hs, ht⟩
      rcases List.append_eq_nil.mp hs with ⟨hs2, hn⟩
      exact ⟨[], by simp [hn]⟩
  | cons c t ih =>
    simp only [containsB, Bool.or_eq_true, isPrefixB_iff, ih]
    constructor
    · rintro (⟨r, hr⟩ | ⟨s, t2, h2⟩)
      · exact ⟨[], r, by simpa using hr⟩
      · exact ⟨c :: s, t2, by simp [h2]⟩
    · rintro ⟨s, t2, h2⟩
      cases s with
      | nil => exact Or.inl ⟨t2, by simpa using h2⟩
      | cons c2 s2 =>
        simp only [List.cons_append, List.cons.injEq] at h2
        exact Or.inr ⟨s2, t2, h2.2⟩

theorem pyIn_iff (n h : String) :
    pyIn n h = true ↔ ∃ s t, s ++ n.data ++ t = h.data := containsB_iff n.data h.data

theorem pyIn_append_left (n a b : String) (h : pyIn n a = true) :
    pyIn n (a ++ b) = true := by
  rcases (pyIn_iff n a).mp h with ⟨s, t, hst⟩
  refine (pyIn_iff n (a ++ b)).mpr ⟨s, t ++ b.data, ?_⟩
  rw [strData_append, ← hst]
  simp

theorem pyIn_append_right (n a b : String) (h : pyIn n b = true) :
    pyIn n (a ++ b) = true := by
  rcases (pyIn_iff n b).mp h with ⟨s, t, hst⟩
  refine (pyIn_iff n (a ++ b)).mpr ⟨a.data ++ s, t, ?_⟩
  rw [strData_append, ← hst]
  simp

theorem pyIn_pyJoin_of_mem (n sep : String) :
    ∀ (l : List String) (x : String), x ∈ l → pyIn n x = true →
      pyIn n (pyJoin sep l) = true := by
  intro l
  induction l with
  | nil => intro x hx; cases hx
  | cons y ys ih =>
    intro x hx hn
    rcases List.mem_cons.mp hx with rfl | hx
    · cases ys with
      | nil => exact hn
      | cons z zs => exact pyIn_append_left _ _ _ (pyIn_append_left _ _ _ hn)
    · cases ys with
      | nil => cases hx
      | cons z zs =>
        exact pyIn_append_right _ _ _ (ih x hx hn)

/-! ## Lemmas about finditer and object extraction -/

theorem finditerAux_start_le (re : RE) :
    ∀ (fuel : Nat) (l : List Char) (i : Nat) (x : Nat × Nat × List Char),
      x ∈ finditerAux re fuel l i → i ≤ x.1 := by
  intro fuel
  induction fuel with
  | zero => intro l i x h; simp [finditerAux] at h
  | succ fuel ih =>
    intro l i x h
    cases l with
    | nil => simp [finditerAux] at h
    | cons c t =>
      rw [finditerAux] at h
      split at h
      · split at h
        · exact Nat.le_trans (Nat.le_succ i) (ih t (i + 1) x h)
        · rcases List.mem_cons.mp h with rfl | h
          · exact Nat.le_refl i
          · have h2 := ih _ _ x h
            omega
      · exact Nat.le_trans (Nat.le_succ i) (ih t (i + 1) x h)

theorem finditerAux_sorted (re : RE) :
    ∀ (fuel : Nat) (l : List Char) (i : Nat),
      (finditerAux re fuel l i).Pairwise (fun a b => a.1 < b.1) := by
  intro fuel
  induction fuel with
  | zero => intro l i; simp [finditerAux]
  | succ fuel ih =>
    intro l i
    cases l with
    | nil => simp [finditerAux]
    | cons c t =>
      rw [finditerAux]
      split
      · split
        · exact ih t (i + 1)
        · rename_i len _ hz
          refine List.Pairwise.cons ?_ (ih ((c :: t).drop len) (i + len))
          intro y hy
          have h1 := finditerAux_start_le re fuel ((c :: t).drop len) (i + len) y hy
          have h2 : 0 < len := Nat.pos_of_ne_zero hz
          omega
      · exact ih t (i + 1)

theorem finditer_sorted (re : RE) (l : List Char) :
    (finditer re l).Pairwise (fun a b => a.1 < b.1) :=
  finditerAux_sorted re l.length l 0

theorem objectsFor_type (ty : String) (re : RE) (t : List Char) :
    ∀ o ∈ NLPAnimationParser.objectsFor ty re t, o.type = ty := by
  intro o h
  rcases List.mem_map.mp h with ⟨m, hm, rfl⟩
  rfl

theorem objectsFor_pairwise (ty : String) (re : RE) (t : List Char) :
    (NLPAnimationParser.objectsFor ty re t).Pairwise
      (fun a b => a.type = b.type ∧ a.posStart < b.posStart) := by
  unfold NLPAnimationParser.objectsFor
  rw [List.pairwise_map]
  exact (finditer_sorted re t).imp (fun h => ⟨rfl, h⟩)

/-! ## Lemmas about transformation extraction and request validation -/

theorem transformsForKeywords_type (t : List Char) (ty : String) :
    ∀ (kws : List String) (tr : Transformation),
      tr ∈ NLPAnimationParser.transformsForKeywords t ty kws → tr.type = ty := by
  intro kws
  induction kws with
  | nil => intro tr h; cases h
  | cons kw rest ih =>
    intro tr h
    simp only [NLPAnimationParser.transformsForKeywords] at h
    rcases List.mem_append.mp h with h | h
    · split at h
      · rcases List.mem_singleton.mp h with rfl
        rfl
      · cases h
    · exact ih tr h

theorem transformsForTable_type (t : List Char) :
    ∀ (tbl : List (String × List String)) (tr : Transformation),
      tr ∈ NLPAnimationParser.transformsForTable t tbl →
        ∃ p ∈ tbl, tr.type = p.1 := by
  intro tbl
  induction tbl with
  | nil => intro tr h; cases h
  | cons p rest ih =>
    intro tr h
    rcases List.mem_append.mp h with h | h
    · exact ⟨p, List.mem_cons_self p rest,
        transformsForKeywords_type t p.1 p.2 tr h⟩
    · rcases ih tr h with ⟨q, hq, ht⟩
      exact ⟨q, List.mem_cons_of_mem p hq, ht⟩

theorem extract_transformations_no_stereo (t : List Char) :
    ∀ tr ∈ NLPAnimationParser.extract_transformations t,
      (tr.type == "stereographic_projection") = false := by
  intro tr h
  rcases transformsForTable_type t NLPAnimationParser.transform_keywords tr h
    with ⟨p, hp, htype⟩
  fin_cases hp <;> simp [htype]

theorem validate_request_eq (objects : List MathObject)
    (transformations : List Transformation)
    (h : ∀ tr ∈ transformations,
      (tr.type == "stereographic_projection") = false) :
    NLPAnimationParser.validate_request objects transformations =
      (match (objects.filter (fun o => o.type == "vector")).map
          NLPAnimationParser.coordLen with
       | [] => Except.ok ()
       | d :: rest =>
         if rest.any (fun x => x != d) then
           Except.error "All vectors must have the same dimension"
         else Except.ok ()) := by
  unfold NLPAnimationParser.validate_request
  rw [if_neg]
  intro hc
  rw [List.any_eq_true] at hc
  obtain ⟨tr, htr, hb⟩ := hc
  rw [Bool.and_eq_true] at hb
  rw [h tr htr] at hb
  exact absurd hb.1 (by simp)

theorem twoDistinct_iff (l : List Nat) :
    (match l with
     | [] => false
     | d :: rest => rest.any (fun x => x != d)) = true ↔
    ∃ a ∈ l, ∃ b ∈ l, a ≠ b := by
  cases l with
  | nil => simp
  | cons d rest =>
    simp only [List.any_eq_true, bne_iff_ne]
    constructor
    · rintro ⟨x, hx, hne⟩
      exact ⟨d, List.mem_cons_self _ _, x, List.mem_cons_of_mem _ hx, Ne.symm hne⟩
    · rintro ⟨a, ha, b, hb, hne⟩
      by_cases had : a = d
      · subst had
        rcases List.mem_cons.mp hb with rfl | hb
        · exact absurd rfl hne
        · exact ⟨b, hb, Ne.symm hne⟩
      · rcases List.mem_cons.mp ha with rfl | ha
        · exact absurd rfl had
        · exact ⟨a, ha, had⟩

/-! ## Structural lemmas about parse and the pipeline entry point -/

theorem process_of_parse_error (d : String) (v : Bool) (e : String)
    (h : NLPAnimationParser.parse d = Except.error e) :
    process_animation_request d v =
      { success := false, manim_code := none, validation_report := none,
        animation_request := none, error := some e } := by
  unfold process_animation_request
  rw [h]

theorem process_success_false_iff (d : String) (v : Bool) :
    (process_animation_request d v).success = false ↔
      ∃ e, NLPAnimationParser.parse d = Except.error e := by
  unfold process_animation_request
  cases h : NLPAnimationParser.parse d <;> simp

theorem parse_error_iff (d : String) (e : String) :
    NLPAnimationParser.parse d = Except.error e ↔
      NLPAnimationParser.validate_request
        (NLPAnimationParser.extract_objects (pyNormalize d).data)
        (NLPAnimationParser.extract_transformations (pyNormalize d).data) =
        Except.error e := by
  simp only [NLPAnimationParser.parse]
  cases h : NLPAnimationParser.validate_request
      (NLPAnimationParser.extract_objects (pyNormalize d).data)
      (NLPAnimationParser.extract_transformations (pyNormalize d).data) <;>
    simp [h]

theorem dims_pair_iff (objects : List MathObject) :
    (match (objects.filter (fun o => o.type == "vector")).map
        NLPAnimationParser.coordLen with
     | [] => false
     | d :: rest => rest.any (fun x => x != d)) = true ↔
    ∃ v ∈ objects.filter (fun o => o.type == "vector"),
      ∃ w ∈ objects.filter (fun o => o.type == "vector"),
        NLPAnimationParser.coordLen v ≠ NLPAnimationParser.coordLen w := by
  rw [twoDistinct_iff]
  constructor
  · rintro ⟨a, ha, b, hb, hne⟩
    rcases List.mem_map.mp ha with ⟨v, hv, rfl⟩
    rcases List.mem_map.mp hb with ⟨w, hw, rfl⟩
    exact ⟨v, hv, w, hw, hne⟩
  · rintro ⟨v, hv, w, hw, hne⟩
    exact ⟨_, List.mem_map_of_mem _ hv, _, List.mem_map_of_mem _ hw, hne⟩

theorem validate_request_cases (objects : List MathObject)
    (transformations : List Transformation)
    (h : ∀ tr ∈ transformations,
      (tr.type == "stereographic_projection") = false) :
    ((NLPAnimationParser.validate_request objects transformations =
        Except.error "All vectors must have the same dimension") ↔
      (match (objects.filter (fun o => o.type == "vector")).map
          NLPAnimationParser.coordLen with
       | [] => false
       | d :: rest => rest.any (fun x => x != d)) = true) ∧
    (∀ e, NLPAnimationParser.validate_request objects transformations =
        Except.error e → e = "All vectors must have the same dimension") := by
  rw [validate_request_eq _ _ h]
  constructor
  · cases hd : (objects.filter (fun o => o.type == "vector")).map
        NLPAnimationParser.coordLen with
    | nil => simp
    | cons d0 rest =>
      by_cases hb : rest.any (fun x => x != d0) = true
      · simp [hb]
      · simp [hb]
  · intro e he
    split at he
    · cases he
    · split at he
      · simp only [Except.error.injEq] at he
        exact he.symm
      · cases he

/-! ## Lemmas about the validator and the code generator -/

theorem vvo_mem (req : AnimationRequest) (v : MathObject) (cs : List ℚ)
    (h2 : 2 ≤ (AnimationValidator.vectorObjects req).length)
    (h3 : ∀ w ∈ AnimationValidator.vectorObjects req,
      w.coordinates.isSome = true)
    (hv : v ∈ AnimationValidator.vectorObjects req)
    (hcs : v.coordinates = some cs)
    (hs : mkRat 1 1 ≤ AnimationValidator.sumSq cs) :
    ∃ ws, AnimationValidator.validate_vector_operations req = some ws ∧
      AnimationValidator.vectorWarning cs ∈ ws := by
  simp only [AnimationValidator.validate_vector_operations]
  rw [if_pos ⟨h2, List.all_eq_true.mpr h3⟩]
  have hmem : AnimationValidator.vectorWarning cs ∈
      (AnimationValidator.vectorObjects req).filterMap (fun v =>
        match v.coordinates with
        | some cs =>
          if mkRat 1 1 ≤ AnimationValidator.sumSq cs then
            some (AnimationValidator.vectorWarning cs)
          else none
        | none => none) := by
    refine List.mem_filterMap.mpr ⟨v, hv, ?_⟩
    rw [hcs]
    exact if_pos hs
  rw [if_neg]
  · exact ⟨_, rfl, hmem⟩
  · intro hE
    rw [List.isEmpty_iff] at hE
    rw [hE] at hmem
    cases hmem

theorem validate_warnings_mem (req : AnimationRequest) (code : String)
    (v : MathObject) (cs : List ℚ)
    (h1 : req.animation_type = AnimationType.VECTOR_OPERATION)
    (h2 : 2 ≤ (AnimationValidator.vectorObjects req).length)
    (h3 : ∀ w ∈ AnimationValidator.vectorObjects req,
      w.coordinates.isSome = true)
    (hv : v ∈ AnimationValidator.vectorObjects req)
    (hcs : v.coordinates = some cs)
    (hs : mkRat 1 1 ≤ AnimationValidator.sumSq cs) :
    AnimationValidator.vectorWarning cs ∈
      (AnimationValidator.validate req code).warnings := by
  obtain ⟨ws, hws, hmem⟩ := vvo_mem req v cs h2 h3 hv hcs hs
  show AnimationValidator.vectorWarning cs ∈
    AnimationValidator.typeWarnings req ++ AnimationValidator.stabilityWarnings code
  apply List.mem_append_left
  unfold AnimationValidator.typeWarnings
  rw [if_pos h1, hws]
  exact hmem

theorem rotationFrag_mem (l : List Transformation) (tr : Transformation)
    (h : tr ∈ l) (ht : tr.type = "rotation") :
    ManimCodeGenerator.rotationFrag tr.params ∈
      ManimCodeGenerator.transformationFrags l := by
  induction l with
  | nil => cases h
  | cons a rest ih =>
    rcases List.mem_cons.mp h with rfl | h
    · simp only [ManimCodeGenerator.transformationFrags]
      apply List.mem_append_left
      rw [ht]
      simp
    · simp only [ManimCodeGenerator.transformationFrags]
      exact List.mem_append_right _ (ih h)

theorem pyIn_rotationFrag (p : TransformParams) :
    pyIn "Rotate(obj_0," (ManimCodeGenerator.rotationFrag p) = true := by
  simp only [ManimCodeGenerator.rotationFrag]
  exact pyIn_append_left _ _ _ (pyIn_append_left _ _ _ (by decide))

theorem pyIn_360_rotationFrag (p : TransformParams) (ha : p.angle = none)
    (hu : p.unit = none) :
    pyIn "360*DEGREES" (ManimCodeGenerator.rotationFrag p) = true := by
  simp only [ManimCodeGenerator.rotationFrag, ha, hu]
  rw [if_pos (by simp)]
  exact pyIn_append_left _ _ _ (pyIn_append_right _ _ _ (by decide))

theorem pyIn_generate_of_transform_code (req : AnimationRequest) (n : String)
    (h : pyIn n (ManimCodeGenerator.generate_transformations
      req.transformations req.objects) = true) :
    pyIn n (ManimCodeGenerator.generate req) = true := by
  simp only [ManimCodeGenerator.generate]
  exact pyIn_append_left _ _ _ (pyIn_append_left _ _ _ (pyIn_append_left _ _ _
    (pyIn_append_right _ _ _ h)))

/-! ## Claim theorems -/

/-- Claim C1 (code bug evidence): the input "map" contains the projection
keyword map and no sphere keyword, yet the pipeline succeeds with no error
although a projection transformation was extracted — the sphere check of
_validate_request compares against the type string stereographic_projection,
which _extract_transformations never produces, so the documented domain
validation never fires. -/
theorem c1_projection_without_sphere_succeeds :
    (process_animation_request "map" true).success = true ∧
    (process_animation_request "map" true).error = none ∧
    (process_animation_request "map" true).animation_request.map
      (fun r => r.transformations.map Transformation.type) =
      some ["projection"] := by
  exact ⟨by decide, by decide, by decide⟩

/-- Claim C7: whenever parsing raises (the only exception source of the
embedded pipeline), the entry point returns a failure record whose code,
report and request fields are all null and whose error field carries the
message; and every failed run has a null code field, a null request field
and an error message. -/
theorem c7_failure_returns_no_partial_output (d : String) (v : Bool) :
    (∀ e, NLPAnimationParser.parse d = Except.error e →
      process_animation_request d v =
        { success := false, manim_code := none, validation_report := none,
          animation_request := none, error := some e }) ∧
    ((process_animation_request d v).success = false →
      (process_animation_request d v).manim_code = none ∧
      (process_animation_request d v).error.isSome = true ∧
      (process_animation_request d v).animation_request = none) := by
  constructor
  · exact fun e he => process_of_parse_error d v e he
  · intro hf
    rcases (process_success_false_iff d v).mp hf with ⟨e, he⟩
    rw [process_of_parse_error d v e he]
    exact ⟨rfl, rfl, rfl⟩

/-- Claim C7 witness: a concrete failing run (mismatched vector dimensions)
returns the clean failure record. -/
theorem c7_witness :
    process_animation_request "[1,2] and [3]" true =
      { success := false, manim_code := none, validation_report := none,
        animation_request := none,
        error := some "All vectors must have the same dimension" } :=
  (c7_failure_returns_no_partial_output "[1,2] and [3]" true).1 _ rfl

/-- Claim C8: the pipeline is deterministic — two runs on the same
description with validation on return identical results, in particular
identical generated code and identical validation reports (the embedding is
a pure function of the description; the source components keep no state
across calls). -/
theorem c8_process_deterministic (d : String) :
    process_animation_request d true = process_animation_request d true ∧
    (process_animation_request d true).manim_code =
      (process_animation_request d true).manim_code ∧
    (process_animation_request d true).validation_report =
      (process_animation_request d true).validation_report :=
  ⟨rfl, rfl, rfl⟩

/-- Claim C9: the mathematical_accuracy flag of every validation report is
True — it is set once at construction and no later update of the report
touches it, whatever the request, the code, the warnings or the
suggestions. -/
theorem c9_accuracy_flag_always_true (req : AnimationRequest) (code : String) :
    (AnimationValidator.validate req code).mathematical_accuracy = true := rfl

/-- Claim C10: every request holding a rotation transformation generates
code containing a rotation animation applied to the fixed identifier obj_0,
whatever the objects list (even empty); and when no angle and no unit were
extracted, the substituted angle is the integer default 360 in degrees. -/
theorem c10_rotation_applies_to_obj0 (req : AnimationRequest)
    (tr : Transformation) (h : tr ∈ req.transformations)
    (ht : tr.type = "rotation") :
    pyIn "Rotate(obj_0," (ManimCodeGenerator.generate req) = true ∧
    (tr.params.angle = none → tr.params.unit = none →
      pyIn "360*DEGREES" (ManimCodeGenerator.generate req) = true) := by
  constructor
  · apply pyIn_generate_of_transform_code
    exact pyIn_pyJoin_of_mem _ "\n" _ _
      (rotationFrag_mem _ tr h ht) (pyIn_rotationFrag tr.params)
  · intro ha hu
    apply pyIn_generate_of_transform_code
    exact pyIn_pyJoin_of_mem _ "\n" _ _
      (rotationFrag_mem _ tr h ht) (pyIn_360_rotationFrag tr.params ha hu)

/-- Claim C10 witness: a concrete request with an angle free rotation and an
empty objects list generates code containing the obj_0 rotation with the
default 360 degrees. -/
theorem c10_witness :
    pyIn "Rotate(obj_0," (ManimCodeGenerator.generate rotationOnlyRequest) =
      true ∧
    pyIn "360*DEGREES" (ManimCodeGenerator.generate rotationOnlyRequest) =
      true := by
  have h := c10_rotation_applies_to_obj0 rotationOnlyRequest
    { type := "rotation", keyword := "rotate",
      params := { angle := none, unit := none, reference := none } }
    (List.mem_singleton.mpr rfl) rfl
  exact ⟨h.1, h.2 rfl rfl⟩

/-- Claim C2 counterexample: on the Möbius input the extracted
transformations list is empty ("rotating" contains none of the keywords
rotate, spin, turn), so it does not hold exactly one rotation with angle
45. -/
theorem c2_counterexample_no_rotation :
    (process_animation_request "Visualize a Möbius transformation on the complex plane rotating by 45 degrees" true).animation_request.map
      AnimationRequest.transformations = some [] ∧
    ¬ ((process_animation_request "Visualize a Möbius transformation on the complex plane rotating by 45 degrees" true).animation_request.map
        (fun r => (r.transformations.filter
          (fun tr => tr.type == "rotation")).length) = some 1) := by
  exact ⟨by decide, by decide⟩

/-- Claim C2 amended: the Möbius input succeeds (a geometric transform with
the complex plane object), but with an empty transformations list — no
rotation and no angle are extracted, because keyword matching is a substring
test for rotate, spin and turn, none of which occurs in "rotating". -/
theorem c2_amended_mobius_success_without_transform :
    (process_animation_request "Visualize a Möbius transformation on the complex plane rotating by 45 degrees" true).success = true ∧
    (process_animation_request "Visualize a Möbius transformation on the complex plane rotating by 45 degrees" true).animation_request.map
      (fun r => (r.animation_type, r.transformations,
        r.objects.map (fun o => (o.type, o.value)))) =
      some (AnimationType.GEOMETRIC_TRANSFORM, [],
        [("plane", "complex plane")]) := by
  exact ⟨by decide, by decide⟩

/-- Claim C3 counterexample: a VECTOR_OPERATION request holding a single
vector of norm larger than one gets no warning at all — the vector check of
the validator only runs when at least two vector objects are present. -/
theorem c3_counterexample_single_vector_unwarned :
    (process_animation_request "gyroaddition of [1.1,0.2,0.5]" true).validation_report =
      some { mathematical_accuracy := true, warnings := [], suggestions := [] } ∧
    (process_animation_request "gyroaddition of [1.1,0.2,0.5]" true).animation_request.map
      (fun r => (r.animation_type, r.objects.map MathObject.coordinates)) =
      some (AnimationType.VECTOR_OPERATION,
        [some [mkRat 11 10, mkRat 1 5, mkRat 1 2]]) ∧
    mkRat 1 1 ≤ AnimationValidator.sumSq [mkRat 11 10, mkRat 1 5, mkRat 1 2] := by
  exact ⟨by decide, by decide, by decide⟩

/-- Claim C3 amended: when a VECTOR_OPERATION request holds at least two
vector objects, all carrying coordinates, every such vector of norm at least
one contributes a warning naming its coordinates to the validation report;
and the Poincaré ball example input yields exactly the warning naming
[1.1, 0.2, 0.5]. -/
theorem c3_amended_norm_warnings :
    (∀ (req : AnimationRequest) (code : String) (v : MathObject)
        (cs : List ℚ),
      req.animation_type = AnimationType.VECTOR_OPERATION →
      2 ≤ (AnimationValidator.vectorObjects req).length →
      (∀ w ∈ AnimationValidator.vectorObjects req,
        w.coordinates.isSome = true) →
      v ∈ AnimationValidator.vectorObjects req →
      v.coordinates = some cs →
      mkRat 1 1 ≤ AnimationValidator.sumSq cs →
      AnimationValidator.vectorWarning cs ∈
        (AnimationValidator.validate req code).warnings) ∧
    ((process_animation_request "Show gyroaddition of [0.3,0.4,0] and [1.1,0.2,0.5] in the Poincaré ball model" true).validation_report.map
      ValidationReport.warnings =
      some [AnimationValidator.vectorWarning
        [mkRat 11 10, mkRat 1 5, mkRat 1 2]]) := by
  constructor
  · exact fun req code v cs h1 h2 h3 hv hcs hs =>
      validate_warnings_mem req code v cs h1 h2 h3 hv hcs hs
  · decide

/-- Claim C3 witness: the amended statement applied to a concrete two vector
request whose first vector has norm larger than one. -/
theorem c3_amended_witness :
    AnimationValidator.vectorWarning [mkRat 3 2, mkRat 0 1] ∈
      (AnimationValidator.validate twoVectorRequest "").warnings :=
  c3_amended_norm_warnings.1 twoVectorRequest ""
    { type := "vector", value := "[1.5, 0]", posStart := 0, posEnd := 8,
      coordinates := some [mkRat 3 2, mkRat 0 1] }
    [mkRat 3 2, mkRat 0 1] rfl (by decide) (by decide) (by decide) rfl
    (by decide)

/-- Claim C6 counterexample: the input "gyroaddition" contains no object,
transformation or parameter keyword (all three extractions return their
defaults), yet the animation category is VECTOR_OPERATION, not the claimed
GEOMETRIC_TRANSFORM — the category is decided by the separate concept
patterns. -/
theorem c6_counterexample_gyro_category :
    NLPAnimationParser.extract_objects (pyNormalize "gyroaddition").data = [] ∧
    NLPAnimationParser.extract_transformations
      (pyNormalize "gyroaddition").data = [] ∧
    NLPAnimationParser.extract_parameters (pyNormalize "gyroaddition").data =
      { duration := mkRat 3 1, quality := "standard", style := "academic" } ∧
    (process_animation_request "gyroaddition" true).success = true ∧
    (process_animation_request "gyroaddition" true).animation_request.map
      AnimationRequest.animation_type = some AnimationType.VECTOR_OPERATION ∧
    AnimationType.VECTOR_OPERATION ≠ AnimationType.GEOMETRIC_TRANSFORM := by
  exact ⟨by decide, by decide, by decide, by decide, by decide, by decide⟩

/-- Claim C6 amended: for input whose normalisation triggers no animation
type concept pattern (so the detected type is the default) and no object,
transformation or parameter keyword, the pipeline succeeds with the default
GEOMETRIC_TRANSFORM category, empty objects and transformations, and the
default parameters. -/
theorem c6_amended_default_request (d : String)
    (h1 : NLPAnimationParser.detect_animation_type (pyNormalize d).data =
      AnimationType.GEOMETRIC_TRANSFORM)
    (h2 : NLPAnimationParser.extract_objects (pyNormalize d).data = [])
    (h3 : NLPAnimationParser.extract_transformations (pyNormalize d).data = [])
    (h4 : NLPAnimationParser.extract_parameters (pyNormalize d).data =
      { duration := mkRat 3 1, quality := "standard", style := "academic" }) :
    (process_animation_request d true).success = true ∧
    (process_animation_request d true).animation_request =
      some { description := pyNormalize d,
             animation_type := AnimationType.GEOMETRIC_TRANSFORM,
             objects := [], transformations := [],
             parameters := { duration := mkRat 3 1, quality := "standard",
                             style := "academic" },
             validation_required := true } := by
  have hparse : NLPAnimationParser.parse d = Except.ok
      { description := pyNormalize d,
        animation_type := AnimationType.GEOMETRIC_TRANSFORM,
        objects := [], transformations := [],
        parameters := { duration := mkRat 3 1, quality := "standard",
                        style := "academic" },
        validation_required := true } := by
    simp only [NLPAnimationParser.parse]
    rw [h1, h2, h3, h4]
    rfl
  unfold process_animation_request
  rw [hparse]
  exact ⟨rfl, rfl⟩

/-- Claim C6 witness: the amended statement at the keyword free input
"hello". -/
theorem c6_amended_witness :
    (process_animation_request "hello" true).success = true ∧
    (process_animation_request "hello" true).animation_request =
      some { description := pyNormalize "hello",
             animation_type := AnimationType.GEOMETRIC_TRANSFORM,
             objects := [], transformations := [],
             parameters := { duration := mkRat 3 1, quality := "standard",
                             style := "academic" },
             validation_required := true } :=
  c6_amended_default_request "hello" (by decide) (by decide) (by decide)
    (by decide)

/-- Claim C4 counterexample: on "plane then sphere" the extracted objects
list the sphere (first occurrence at position 11) before the plane (first
occurrence at position 0), so insertion order is not the order of first
textual appearance. -/
theorem c4_counterexample_kind_order :
    (NLPAnimationParser.extract_objects "plane then sphere".data).map
      (fun o => (o.type, o.posStart)) = [("sphere", 11), ("plane", 0)] ∧
    ¬ ((NLPAnimationParser.extract_objects "plane then sphere".data).Pairwise
        (fun a b => a.posStart ≤ b.posStart)) := by
  constructor
  · decide
  · intro h
    have h2 := List.rel_of_pairwise_cons h (by decide :
      ({ type := "plane", value := "plane", posStart := 0, posEnd := 5,
         coordinates := none } : MathObject) ∈
        [{ type := "plane", value := "plane", posStart := 0, posEnd := 5,
           coordinates := none }])
    exact absurd h2 (by decide)

/-- Claim C4 amended: extracted objects are grouped by kind in the fixed
iteration order of object_patterns (sphere, plane, vector, point, manifold);
within one kind the matches appear in strictly increasing position of first
occurrence, but objects of a later kind follow all objects of an earlier
kind regardless of their textual positions. -/
theorem c4_amended_objects_grouped_by_kind (t : List Char) :
    (NLPAnimationParser.extract_objects t).Pairwise (fun a b =>
      kindIndex a.type < kindIndex b.type ∨
        (a.type = b.type ∧ a.posStart < b.posStart)) := by
  have hg : ∀ (ty : String) (re : RE),
      (NLPAnimationParser.objectsFor ty re t).Pairwise (fun a b =>
        kindIndex a.type < kindIndex b.type ∨
          (a.type = b.type ∧ a.posStart < b.posStart)) :=
    fun ty re => (objectsFor_pairwise ty re t).imp (fun h => Or.inr h)
  have hcross : ∀ (ty1 : String) (re1 : RE) (ty2 : String) (re2 : RE),
      kindIndex ty1 < kindIndex ty2 →
      ∀ a ∈ NLPAnimationParser.objectsFor ty1 re1 t,
      ∀ b ∈ NLPAnimationParser.objectsFor ty2 re2 t,
        kindIndex a.type < kindIndex b.type ∨
          (a.type = b.type ∧ a.posStart < b.posStart) := by
    intro ty1 re1 ty2 re2 hlt a ha b hb
    refine Or.inl ?_
    rw [objectsFor_type ty1 re1 t a ha, objectsFor_type ty2 re2 t b hb]
    exact hlt
  unfold NLPAnimationParser.extract_objects
  refine List.pairwise_append.mpr ⟨?_, hg "manifold" manifoldRE, ?_⟩
  · refine List.pairwise_append.mpr ⟨?_, hg "point" pointRE, ?_⟩
    · refine List.pairwise_append.mpr ⟨?_, hg "vector" vectorRE, ?_⟩
      · exact List.pairwise_append.mpr ⟨hg "sphere" sphereRE,
          hg "plane" planeRE,
          hcross "sphere" sphereRE "plane" planeRE (by decide)⟩
      · intro a ha b hb
        rcases List.mem_append.mp ha with h | h
        · exact hcross "sphere" _ "vector" _ (by decide) a h b hb
        · exact hcross "plane" _ "vector" _ (by decide) a h b hb
    · intro a ha b hb
      rcases List.mem_append.mp ha with h | h
      · rcases List.mem_append.mp h with h2 | h2
        · exact hcross "sphere" _ "point" _ (by decide) a h2 b hb
        · exact hcross "plane" _ "point" _ (by decide) a h2 b hb
      · exact hcross "vector" _ "point" _ (by decide) a h b hb
  · intro a ha b hb
    rcases List.mem_append.mp ha with h | h
    · rcases List.mem_append.mp h with h2 | h2
      · rcases List.mem_append.mp h2 with h3 | h3
        · exact hcross "sphere" _ "manifold" _ (by decide) a h3 b hb
        · exact hcross "plane" _ "manifold" _ (by decide) a h3 b hb
      · exact hcross "vector" _ "manifold" _ (by decide) a h2 b hb
    · exact hcross "point" _ "manifold" _ (by decide) a h b hb

/-- Claim C5 counterexample: the input "[1.1.1] and [0.3]" produces two
vector objects of which only one carries parsed coordinates (float fails on
1.1.1), yet the pipeline fails with the dimension error — the dimension
check counts a coordinate free vector as dimension zero. -/
theorem c5_counterexample_unparsed_vector :
    (process_animation_request "[1.1.1] and [0.3]" true).success = false ∧
    (process_animation_request "[1.1.1] and [0.3]" true).error =
      some "All vectors must have the same dimension" ∧
    pyIn "dimension" "All vectors must have the same dimension" = true ∧
    ((NLPAnimationParser.extract_objects
        (pyNormalize "[1.1.1] and [0.3]").data).filter
      (fun o => o.type == "vector" && o.coordinates.isSome)).length = 1 := by
  exact ⟨by decide, by decide, by decide, by decide⟩

/-- Claim C5 amended: a run fails exactly when two extracted vector objects
have different coordinate lengths, where a vector without parsed coordinates
counts as length zero; every such failure carries exactly the dimension
error message (the only reachable error of request validation). -/
theorem c5_amended_dimension_error (d : String) :
    ((process_animation_request d true).success = false ↔
      ∃ v ∈ (NLPAnimationParser.extract_objects (pyNormalize d).data).filter
          (fun o => o.type == "vector"),
        ∃ w ∈ (NLPAnimationParser.extract_objects (pyNormalize d).data).filter
            (fun o => o.type == "vector"),
          NLPAnimationParser.coordLen v ≠ NLPAnimationParser.coordLen w) ∧
    ((process_animation_request d true).success = false →
      (process_animation_request d true).error =
        some "All vectors must have the same dimension") := by
  obtain ⟨hiff, huniq⟩ := validate_request_cases
    (NLPAnimationParser.extract_objects (pyNormalize d).data)
    (NLPAnimationParser.extract_transformations (pyNormalize d).data)
    (extract_transformations_no_stereo _)
  constructor
  · rw [process_success_false_iff d true]
    constructor
    · rintro ⟨e, he⟩
      have he2 := (parse_error_iff d e).mp he
      have heq := huniq e he2
      subst heq
      exact (dims_pair_iff _).mp (hiff.mp he2)
    · intro hex
      exact ⟨_, (parse_error_iff d _).mpr
        (hiff.mpr ((dims_pair_iff _).mpr hex))⟩
  · intro hfail
    rcases (process_success_false_iff d true).mp hfail with ⟨e, he⟩
    have he2 := (parse_error_iff d e).mp he
    have heq := huniq e he2
    subst heq
    rw [process_of_parse_error d true _ he]

/-- Claim C5 witness: the amended statement at a concrete input with vectors
of lengths two and one. -/
theorem c5_amended_witness :
    (process_animation_request "[1,2] and [3]" true).error =
      some "All vectors must have the same dimension" :=
  (c5_amended_dimension_error "[1,2] and [3]").2 (by decide)

end NLPPipeline
